import Mathlib

set_option maxHeartbeats 1000000

/-!
Verification of the provider resolution and execution engine of the
"poly_backend" local development gateway (dev-server.js), together with its
catalog metadata extractor.

The JavaScript code is shallowly embedded:

* thrown errors are represented by their message strings, exactly as the
  code constructs them (the code attaches no other distinguishing data to
  the errors it throws);
* the CommonJS require cache is an association list from module paths to
  loaded modules, and the on-disk state of compiled artifacts is a function
  from module paths to a `DiskEntry` (absent, present-but-throwing-on-load,
  or a loadable module);
* the per-request `new AbortController().signal` is identified by a
  natural-number creation index drawn from a counter threaded through the
  engine state, so that distinct requests observably receive distinct
  signals;
* the process-wide `providerContext` helper bundle is a single opaque
  reference value;
* `executeProviderFunction` additionally reports the list of module paths
  for which a disk load was attempted (`loadAttempts`), making the
  "no load is attempted before validation" claims statable.
-/

/-- JSON-like values: results of `JSON.parse`, request parameters and
provider-function results.  Numeric literals are kept as their source
lexeme, since no part of the engine inspects numeric values (this avoids
embedding floating point). -/
inductive Json where
  | null : Json
  | bool (b : Bool) : Json
  | num (lexeme : String) : Json
  | str (s : String) : Json
  | arr (items : List Json) : Json
  | obj (fields : List (String × Json)) : Json

/-- Values stored in an execution-parameter object: ordinary JSON-ish
values, the per-request cancellation signal (identified by its creation
index) and the reference to the shared `providerContext` helper bundle. -/
inductive PV where
  | val (j : Json) : PV
  | signal (id : Nat) : PV
  | providerContextRef : PV

/-- Lookup of a string key in an association list, first binding wins
(JavaScript objects have unique keys, so this is property lookup). -/
def alistLookup {α : Type} (k : String) : List (String × α) → Option α
  | [] => none
  | e :: rest => if e.1 = k then some e.2 else alistLookup k rest

/-- JavaScript property assignment `o[k] = v`: an existing key keeps its
position and gets the new value, a new key is appended. -/
def objSet {α : Type} : List (String × α) → String → α → List (String × α)
  | [], k, v => [(k, v)]
  | e :: rest, k, v => if e.1 = k then (k, v) :: rest else e :: objSet rest k v

/-- `delete cache[k]` on the require cache. -/
def eraseKey {α : Type} (c : List (String × α)) (k : String) : List (String × α) :=
  c.filter (fun e => e.1 != k)

/-- An execution-parameter object (the object passed to a provider
function). -/
abbrev ExecCtx := List (String × PV)

/-- The behavior of one exported provider function: given the execution
parameters it either resolves with a value or rejects with an error
message. -/
abbrev ProviderFun := ExecCtx → Except String Json

/-- A loaded CommonJS module: its exports, keyed by export name. -/
abbrev JsModule := List (String × ProviderFun)

/-- The on-disk state of one compiled artifact path. -/
inductive DiskEntry where
  | absent : DiskEntry
  | broken (msg : String) : DiskEntry
  | modFile (m : JsModule) : DiskEntry

/-- The state the engine runs against: the compiled artifacts under
`dist`, the provider directories under `dist` (what `fs.readdirSync`
reports), whether `dist/providerContext` itself loads, the require cache,
and the counter supplying fresh AbortController signals. -/
structure EngineState where
  disk : String → DiskEntry
  distDirs : List String
  providerContextOk : Bool
  cache : List (String × JsModule)
  nextSignal : Nat

/-- DevServer.getAvailableProviders (dev-server.js lines 306-315): the
provider registry re-reads the directory listing of `dist` on every call;
`distDirs` is that listing. -/
def getAvailableProviders (st : EngineState) : List String :=
  st.distDirs

/-- The result of one `require(modulePath)` call: the loaded module or the
thrown error, the updated cache, and the disk accesses performed (empty on
a cache hit). -/
structure RequireOut where
  outcome : Except String JsModule
  cache : List (String × JsModule)
  loaded : List String

/-- CommonJS `require`: a cached module is returned as is; otherwise the
file is read from disk, and a successfully loaded module is cached. -/
def requireModule (disk : String → DiskEntry) (cache : List (String × JsModule))
    (mp : String) : RequireOut :=
  match alistLookup mp cache with
  | some m => ⟨.ok m, cache, []⟩
  | none =>
    match disk mp with
    | .absent => ⟨.error (("Cannot find module ") ++ mp), cache, [mp]⟩
    | .broken msg => ⟨.error msg, cache, [mp]⟩
    | .modFile m => ⟨.ok m, (mp, m) :: cache, [mp]⟩

/-- The `functionMap` of dev-server.js lines 332-338: the closed capability
set, mapping each accepted function name to the actual provider function
name (the identity on five names). -/
def functionMap : List (String × String) :=
  [(("getPosts"), ("getPosts")), (("getSearchPosts"), ("getSearchPosts")),
   (("getMeta"), ("getMeta")), (("getStream"), ("getStream")),
   (("getEpisodes"), ("getEpisodes"))]

/-- The artifact file implementing a capability (dev-server.js lines
351-367): the two list/search capabilities share `posts.js`; meta, stream
and episodes have their own files. -/
def moduleFileFor (fn : String) : Option String :=
  if fn = ("getPosts") ∨ fn = ("getSearchPosts") then some ("posts.js")
  else if fn = ("getMeta") then some ("meta.js")
  else if fn = ("getStream") then some ("stream.js")
  else if fn = ("getEpisodes") then some ("episodes.js")
  else none

/-- `path.join(this.distDir, provider, file)` for the capability's module
group. -/
def modulePathFor (provider fn : String) : Option String :=
  (moduleFileFor fn).map (fun f => ("dist/") ++ provider ++ ("/") ++ f)

/-- The execution-parameter object built at dev-server.js lines 393-399:
`{...params, providerValue: provider, signal, providerContext}`.  The three
engine-supplied properties are assigned after the caller parameters are
spread, so they overwrite caller keys of the same name. -/
def buildCtx (params : List (String × PV)) (provider : String) (sig : Nat) : ExecCtx :=
  objSet (objSet (objSet params ("providerValue") (PV.val (Json.str provider)))
    ("signal") (PV.signal sig)) ("providerContext") PV.providerContextRef

/-- Everything the engine returns from one `executeProviderFunction` call:
the settled result (value or thrown-error message), the require cache and
signal counter afterwards, and the module paths for which a disk load was
attempted. -/
structure InvokeOut where
  result : Except String Json
  cache : List (String × JsModule)
  nextSignal : Nat
  loadAttempts : List String

/-- The module-load-and-run part of `executeProviderFunction`
(dev-server.js lines 346-402): first `require`, then the cache entry for
the path is deleted and the module is required again fresh from disk; a
throw from either `require` is caught and converted to the single
"Provider function not found" error; a missing export yields "Function not
exported"; otherwise the function is called with the built parameters and
a raised error is rethrown with its original message. -/
def invokeLoadAndRun (st : EngineState) (provider fn : String)
    (params : List (String × PV)) (mp : String) : InvokeOut :=
  let r1 := requireModule st.disk st.cache mp
  match r1.outcome with
  | .error _ =>
    ⟨.error (("Provider function not found: ") ++ provider ++ ("/") ++ fn),
      r1.cache, st.nextSignal, r1.loaded⟩
  | .ok _ =>
    let r2 := requireModule st.disk (eraseKey r1.cache mp) mp
    match r2.outcome with
    | .error _ =>
      ⟨.error (("Provider function not found: ") ++ provider ++ ("/") ++ fn),
        r2.cache, st.nextSignal, r1.loaded ++ r2.loaded⟩
    | .ok m2 =>
      match alistLookup fn m2 with
      | none =>
        ⟨.error (("Function not exported: ") ++ fn ++ (" from ") ++ provider),
          r2.cache, st.nextSignal, r1.loaded ++ r2.loaded⟩
      | some f =>
        match f (buildCtx params provider st.nextSignal) with
        | .ok v => ⟨.ok v, r2.cache, st.nextSignal + 1, r1.loaded ++ r2.loaded⟩
        | .error msg => ⟨.error msg, r2.cache, st.nextSignal + 1, r1.loaded ++ r2.loaded⟩

/-- DevServer.executeProviderFunction (dev-server.js lines 326-407).  The
shared `providerContext` module is required first; then the function name
is validated against `functionMap` ("Unknown function" on a miss, with no
module lookup for the provider); then the capability's module is resolved,
force-reloaded, its export read and executed.  The final catch (lines
403-406) logs and rethrows the error unchanged, so the result error is
exactly the message produced by the failing step. -/
def executeProviderFunction (st : EngineState) (provider fn : String)
    (params : List (String × PV)) : InvokeOut :=
  if st.providerContextOk = false then
    ⟨.error (("Cannot find module dist/providerContext")), st.cache, st.nextSignal, []⟩
  else
    match alistLookup fn functionMap with
    | none => ⟨.error (("Unknown function: ") ++ fn), st.cache, st.nextSignal, []⟩
    | some _ =>
      match modulePathFor provider fn with
      | none =>
        ⟨.error (("Function not exported: ") ++ fn ++ (" from ") ++ provider),
          st.cache, st.nextSignal, []⟩
      | some mp => invokeLoadAndRun st provider fn params mp

/-- An HTTP response as the transport layer renders it: status code and
JSON body. -/
structure HttpResponse where
  status : Nat
  body : Json

/-- JavaScript truthiness test `!x` for an optional string field of the
request body: absent or empty-string fields are falsy. -/
def isFalsyStr : Option String → Bool
  | none => true
  | some s => s == ("")

/-- POST /execute-provider (dev-server.js lines 232-250): 400 when a
required field is missing/falsy, 200 with the result on success, and 500
with `{error: message}` when `executeProviderFunction` throws (an empty
message falls back to "Provider execution failed"). -/
def executeProviderRoute (st : EngineState) (provider functionName : Option String)
    (params : Option (List (String × PV))) : HttpResponse :=
  if isFalsyStr provider || isFalsyStr functionName || params.isNone then
    ⟨400, Json.obj [(("error"), Json.str ("Missing required fields: provider, function, params"))]⟩
  else
    match provider, functionName, params with
    | some p, some f, some ps =>
      (match (executeProviderFunction st p f ps).result with
       | .ok v => ⟨200, v⟩
       | .error msg =>
         ⟨500, Json.obj [(("error"),
           Json.str (if msg = ("") then ("Provider execution failed") else msg))]⟩)
    | _, _, _ =>
      ⟨400, Json.obj [(("error"), Json.str ("Missing required fields: provider, function, params"))]⟩

/-- The parameter object the GET /posts/:provider route hands to
`executeProviderFunction` (dev-server.js lines 137-140). -/
def postsParams (filter : String) (page : Int) : List (String × PV) :=
  [(("filter"), PV.val (Json.str filter)), (("page"), PV.val (Json.num (toString page)))]

/-- GET /posts/:provider (dev-server.js lines 132-147): 200 with the result
on success, 500 with `{error: message}` when the call throws. -/
def getPostsRoute (st : EngineState) (provider filter : String) (page : Int) : HttpResponse :=
  match (executeProviderFunction st provider ("getPosts") (postsParams filter page)).result with
  | .ok v => ⟨200, v⟩
  | .error msg => ⟨500, Json.obj [(("error"), Json.str msg)]⟩

/-!
The catalog metadata extractor (GET /catalog/:provider, dev-server.js lines
74-129).  The route reads `providers/<provider>/catalog.ts` as text,
locates `export const catalog = [...];` and `export const genres = [...];`
with the regex `export const <name> = (\[[\s\S]*?\]);`, applies three
lexical rewrites (quote unquoted keys, drop trailing commas, turn single
quotes into double quotes) and feeds the result to `JSON.parse`; each
field independently falls back to `[]` on any failure, and an empty
catalog is replaced by the fixed two-entry default.

Characters that the no-confusion rules of this development's toolchain
make awkward as literals (quote, backslash, apostrophe, braces) are
written via `Char.ofNat`.
-/

/-- JavaScript `\w`: ASCII letters, digits and underscore. -/
def isWordChar (c : Char) : Bool :=
  c.isAlpha || c.isDigit || c = Char.ofNat 95

/-- JavaScript `\s` restricted to the ASCII whitespace characters (space,
tab, line feed, vertical tab, form feed, carriage return); the Unicode
space characters that `\s` also covers do not occur in provider
artifacts. -/
def jsWs (c : Char) : Bool :=
  c = (' ') || c = Char.ofNat 9 || c = Char.ofNat 10 || c = Char.ofNat 11 ||
    c = Char.ofNat 12 || c = Char.ofNat 13

/-- The non-greedy tail `[\s\S]*?\];` of the capture: the shortest run of
characters before a `]` that is immediately followed by `;`. -/
def scanToCloseSemi : List Char → Option (List Char)
  | (']') :: (';') :: _ => some []
  | c :: rest => (scanToCloseSemi rest).map (fun m => c :: m)
  | [] => none

/-- One attempted match of `<pat>(\[[\s\S]*?\]);` at the current position:
the literal prefix, then the captured array literal. -/
def matchHere (pat cs : List Char) : Option (List Char) :=
  if pat.isPrefixOf cs then
    match cs.drop pat.length with
    | ('[') :: rest => (scanToCloseSemi rest).map (fun mid => ('[') :: (mid ++ [(']')]))
    | _ => none
  else none

/-- `text.match(/<pat>(\[[\s\S]*?\]);/)`: the capture of the leftmost
match (the regex engine advances the start position until a full match
exists). -/
def locateDecl (pat : List Char) : List Char → Option (List Char)
  | [] => matchHere pat []
  | c :: rest =>
    match matchHere pat (c :: rest) with
    | some cap => some cap
    | none => locateDecl pat rest

/-- Fuel-based worker for `quoteKeys` (structural recursion on the fuel,
so that proofs can evaluate it; every recursive call consumes at least one
input character, so a fuel exceeding the input length is never
exhausted). -/
def quoteKeysF : Nat → List Char → List Char
  | 0, cs => cs
  | _ + 1, [] => []
  | fuel + 1, c :: rest =>
    if isWordChar c then
      match (c :: rest).dropWhile isWordChar with
      | (':') :: r3 =>
        Char.ofNat 34 ::
          ((c :: rest).takeWhile isWordChar ++
            Char.ofNat 34 :: (':') :: (' ') :: quoteKeysF fuel (r3.dropWhile jsWs))
      | r2 => (c :: rest).takeWhile isWordChar ++ quoteKeysF fuel r2
    else c :: quoteKeysF fuel rest

/-- `.replace(/(\w+):\s*/g, a quoted key and one space)`: each maximal run
of word characters immediately followed by a colon is wrapped in double
quotes, and the colon plus following whitespace becomes a colon and a
single space; scanning resumes after the replacement. -/
def quoteKeys (cs : List Char) : List Char :=
  quoteKeysF (cs.length + 1) cs

/-- Fuel-based worker for `dropTrailingCommas` (structural recursion on
the fuel; every recursive call consumes at least one input character). -/
def dropTrailingCommasF : Nat → List Char → List Char
  | 0, cs => cs
  | _ + 1, [] => []
  | fuel + 1, c :: rest =>
    if c = (',') then
      match rest.dropWhile jsWs with
      | b :: r3 =>
        if b = (']') ∨ b = Char.ofNat 125 then
          rest.takeWhile jsWs ++ b :: dropTrailingCommasF fuel r3
        else (',') :: dropTrailingCommasF fuel rest
      | [] => (',') :: dropTrailingCommasF fuel rest
    else c :: dropTrailingCommasF fuel rest

/-- `.replace(/,(\s*[\]\}])/g, the captured group)`: a comma followed by
optional whitespace and a closing bracket or brace loses the comma; the
whitespace and the bracket are kept and scanning resumes after them (one
left-to-right pass, not a fixpoint). -/
def dropTrailingCommas (cs : List Char) : List Char :=
  dropTrailingCommasF (cs.length + 1) cs

/-- `.replace(/'/g, a double quote)`. -/
def replaceSingleQuotes (cs : List Char) : List Char :=
  cs.map (fun c => if c = Char.ofNat 39 then Char.ofNat 34 else c)

/-- The full lexical normalization applied to a captured array literal
(dev-server.js lines 90-93 in source order). -/
def normalizeLiteral (cap : List Char) : List Char :=
  replaceSingleQuotes (dropTrailingCommas (quoteKeys cap))

/-- Hexadecimal digit value, for the `\uXXXX` string escape. -/
def hexVal (c : Char) : Option Nat :=
  if c.isDigit then some (c.toNat - 48)
  else if ('a') ≤ c ∧ c ≤ ('f') then some (c.toNat - 87)
  else if ('A') ≤ c ∧ c ≤ ('F') then some (c.toNat - 70)
  else none

/-- The single-character string escapes accepted by `JSON.parse`. -/
def unescape (e : Char) : Option Char :=
  if e = Char.ofNat 34 then some (Char.ofNat 34)
  else if e = Char.ofNat 92 then some (Char.ofNat 92)
  else if e = ('/') then some ('/')
  else if e = ('b') then some (Char.ofNat 8)
  else if e = ('f') then some (Char.ofNat 12)
  else if e = ('n') then some (Char.ofNat 10)
  else if e = ('r') then some (Char.ofNat 13)
  else if e = ('t') then some (Char.ofNat 9)
  else none

/-- JSON whitespace (exactly space, tab, line feed, carriage return). -/
def jsonWsChar (c : Char) : Bool :=
  c = (' ') || c = Char.ofNat 9 || c = Char.ofNat 10 || c = Char.ofNat 13

/-- Skip JSON whitespace. -/
def skipWs (cs : List Char) : List Char :=
  cs.dropWhile jsonWsChar

/-- The body of a JSON string literal, after the opening quote: the decoded
characters and the remainder after the closing quote.  Unescaped control
characters are rejected, as `JSON.parse` rejects them; a `\uXXXX` escape
becomes the character with that code (the embedding does not recombine
UTF-16 surrogate pairs; no provider artifact uses them). -/
def parseStrChars (fuel : Nat) (cs : List Char) : Option (List Char × List Char) :=
  match fuel with
  | 0 => none
  | fuel + 1 =>
    match cs with
    | [] => none
    | c :: rest =>
      if c = Char.ofNat 34 then some ([], rest)
      else if c = Char.ofNat 92 then
        match rest with
        | [] => none
        | e :: rest2 =>
          if e = ('u') then
            match rest2 with
            | h1 :: h2 :: h3 :: h4 :: rest3 =>
              match hexVal h1, hexVal h2, hexVal h3, hexVal h4 with
              | some a, some b, some cc, some d =>
                (parseStrChars fuel rest3).map
                  (fun r => (Char.ofNat (((a * 16 + b) * 16 + cc) * 16 + d) :: r.1, r.2))
              | _, _, _, _ => none
            | _ => none
          else
            match unescape e with
            | some u => (parseStrChars fuel rest2).map (fun r => (u :: r.1, r.2))
            | none => none
      else if c.toNat < 32 then none
      else (parseStrChars fuel rest).map (fun r => (c :: r.1, r.2))

/-- The lexeme of a JSON number: optional minus, integer part, optional
fraction and exponent (each taken only when it is well formed, so that a
malformed tail is left for the caller, which then rejects it as an
unexpected token, matching `JSON.parse`). -/
def parseNumberLex (cs : List Char) : Option (List Char × List Char) :=
  let (neg, r1) := match cs with
    | c :: r => if c = ('-') then ([c], r) else (([] : List Char), cs)
    | [] => (([] : List Char), cs)
  match r1 with
  | [] => none
  | d :: _ =>
    if d.isDigit = false then none
    else
      let intPart := if d = ('0') then [d] else r1.takeWhile Char.isDigit
      let r2 := r1.drop intPart.length
      let (fracPart, r3) :=
        match r2 with
        | ('.') :: t =>
          if (t.takeWhile Char.isDigit).length = 0 then (([] : List Char), r2)
          else (('.') :: t.takeWhile Char.isDigit, t.dropWhile Char.isDigit)
        | _ => (([] : List Char), r2)
      let (expPart, r4) :=
        match r3 with
        | e :: t =>
          if e = ('e') ∨ e = ('E') then
            match t with
            | s :: t2 =>
              if s = ('+') ∨ s = ('-') then
                if (t2.takeWhile Char.isDigit).length = 0 then (([] : List Char), r3)
                else (e :: s :: t2.takeWhile Char.isDigit, t2.dropWhile Char.isDigit)
              else
                if (t.takeWhile Char.isDigit).length = 0 then (([] : List Char), r3)
                else (e :: t.takeWhile Char.isDigit, t.dropWhile Char.isDigit)
            | [] => (([] : List Char), r3)
          else (([] : List Char), r3)
        | [] => (([] : List Char), r3)
      some (neg ++ intPart ++ fracPart ++ expPart, r4)

mutual

/-- One JSON value, by leading character, after skipping whitespace. -/
def parseVal (fuel : Nat) (cs : List Char) : Option (Json × List Char) :=
  match fuel with
  | 0 => none
  | fuel + 1 =>
    match skipWs cs with
    | [] => none
    | c :: rest =>
      if c = ('[') then
        match skipWs rest with
        | (']') :: r2 => some (Json.arr [], r2)
        | _ => (parseItems fuel rest).map (fun r => (Json.arr r.1, r.2))
      else if c = Char.ofNat 123 then
        match skipWs rest with
        | r2 =>
          if r2.head? = some (Char.ofNat 125) then some (Json.obj [], r2.tail)
          else (parseFields fuel rest).map (fun r => (Json.obj r.1, r.2))
      else if c = Char.ofNat 34 then
        (parseStrChars fuel rest).map (fun r => (Json.str (String.mk r.1), r.2))
      else if c = ('t') then
        match rest with
        | ('r') :: ('u') :: ('e') :: r2 => some (Json.bool true, r2)
        | _ => none
      else if c = ('f') then
        match rest with
        | ('a') :: ('l') :: ('s') :: ('e') :: r2 => some (Json.bool false, r2)
        | _ => none
      else if c = ('n') then
        match rest with
        | ('u') :: ('l') :: ('l') :: r2 => some (Json.null, r2)
        | _ => none
      else if c = ('-') ∨ c.isDigit then
        (parseNumberLex (c :: rest)).map (fun r => (Json.num (String.mk r.1), r.2))
      else none

/-- The items of a non-empty JSON array, up to and including the closing
bracket. -/
def parseItems (fuel : Nat) (cs : List Char) : Option (List Json × List Char) :=
  match fuel with
  | 0 => none
  | fuel + 1 =>
    match parseVal fuel cs with
    | none => none
    | some (v, r) =>
      match skipWs r with
      | (',') :: r2 => (parseItems fuel r2).map (fun t => (v :: t.1, t.2))
      | (']') :: r2 => some ([v], r2)
      | _ => none

/-- The fields of a non-empty JSON object, up to and including the closing
brace. -/
def parseFields (fuel : Nat) (cs : List Char) : Option (List (String × Json) × List Char) :=
  match fuel with
  | 0 => none
  | fuel + 1 =>
    match skipWs cs with
    | c :: rest =>
      if c = Char.ofNat 34 then
        match parseStrChars fuel rest with
        | none => none
        | some (k, r2) =>
          match skipWs r2 with
          | (':') :: r3 =>
            match parseVal fuel r3 with
            | none => none
            | some (v, r4) =>
              match skipWs r4 with
              | (',') :: r5 => (parseFields fuel r5).map
                  (fun t => ((String.mk k, v) :: t.1, t.2))
              | b :: r5 =>
                if b = Char.ofNat 125 then some ([(String.mk k, v)], r5) else none
              | _ => none
          | _ => none
      else none
    | [] => none

end

/-- `JSON.parse`: one value, with nothing but whitespace after it.  The
fuel is ample for any input: every recursive step consumes at least one
character. -/
def jsonParseChars (cs : List Char) : Option Json :=
  match parseVal (cs.length + 2) cs with
  | some (v, r) => if skipWs r = [] then some v else none
  | none => none

/-- Decode the normalized capture with `JSON.parse`.  A successful parse of
a capture is always an array, since a capture begins with `[` and none of
the rewrites touches it; a non-array success is impossible and mapped to
`none`. -/
def decodeArray (cs : List Char) : Option (List Json) :=
  match jsonParseChars cs with
  | some (Json.arr xs) => some xs
  | _ => none

/-- The literal before the catalog capture in
`/export const catalog = (\[[\s\S]*?\]);/`. -/
def catalogPat : List Char :=
  ("export const catalog = ").data

/-- The literal before the genres capture in
`/export const genres = (\[[\s\S]*?\]);/`. -/
def genresPat : List Char :=
  ("export const genres = ").data

/-- One field of the extractor (dev-server.js lines 87-98 for catalog,
100-112 for genres): locate the declaration, normalize, decode; the field
stays `[]` when the declaration is not found or `JSON.parse` throws (the
catch only logs). -/
def extractField (pat : List Char) (text : String) : List Json :=
  match locateDecl pat text.data with
  | none => []
  | some cap => (decodeArray (normalizeLiteral cap)).getD []

/-- The result shape of the catalog route: `{catalog, genres}`. -/
structure CatalogResult where
  catalog : List Json
  genres : List Json

/-- The metadata extractor of the catalog route (dev-server.js lines
82-113): both fields extracted independently from the artifact text,
before the default-catalog substitution. -/
def extractCatalogMetadata (text : String) : CatalogResult :=
  { catalog := extractField catalogPat text, genres := extractField genresPat text }

/-- The fixed two-entry default catalog (dev-server.js lines 117-120). -/
def defaultCatalog : List Json :=
  [Json.obj [(("title"), Json.str ("Popular")), (("filter"), Json.str (""))],
   Json.obj [(("title"), Json.str ("Latest")), (("filter"), Json.str ("latest"))]]

/-- The catalog field before default substitution: `[]` when the source
artifact is missing, otherwise the extracted catalog. -/
def sourceCatalogRaw : Option String → List Json
  | none => []
  | some t => extractField catalogPat t

/-- The genres field: `[]` when the source artifact is missing, otherwise
the extracted genres. -/
def sourceGenresRaw : Option String → List Json
  | none => []
  | some t => extractField genresPat t

/-- GET /catalog/:provider (dev-server.js lines 74-129): `source` is the
content of `providers/<provider>/catalog.ts` or `none` when the file does
not exist; an empty catalog is replaced by the fixed default, genres have
no fallback. -/
def resolveCatalog (source : Option String) : CatalogResult :=
  { catalog :=
      if (sourceCatalogRaw source).isEmpty then defaultCatalog else sourceCatalogRaw source,
    genres := sourceGenresRaw source }

/-!
Concrete artifacts and engine states used by the witnesses and
counterexamples.
-/

/-- The module path of the demo provider's posts group. -/
def demoPostsPath : String :=
  ("dist/demo/posts.js")

/-- The module path of the demo provider's meta group. -/
def demoMetaPath : String :=
  ("dist/demo/meta.js")

/-- A stub `getPosts` whose rebuilt artifact returns the value v2. -/
def newPostsFun : ProviderFun :=
  fun _ => Except.ok (Json.str ("v2"))

/-- The stale, previously loaded stub returning v1. -/
def stalePostsFun : ProviderFun :=
  fun _ => Except.ok (Json.str ("v1"))

/-- The rebuilt posts module on disk. -/
def newPostsModule : JsModule :=
  [(("getPosts"), newPostsFun)]

/-- The stale posts module sitting in the require cache. -/
def stalePostsModule : JsModule :=
  [(("getPosts"), stalePostsFun)]

/-- A stub `getPosts` whose own logic throws, with a message that
coincides with the engine's unknown-capability message. -/
def throwingPostsFun : ProviderFun :=
  fun _ => Except.error (("Unknown function: nope"))

/-- The module exporting `throwingPostsFun`. -/
def throwingPostsModule : JsModule :=
  [(("getPosts"), throwingPostsFun)]

/-- A stub `getPosts` whose own logic throws an ordinary error. -/
def boomPostsFun : ProviderFun :=
  fun _ => Except.error (("boom"))

/-- The module exporting `boomPostsFun`. -/
def boomPostsModule : JsModule :=
  [(("getPosts"), boomPostsFun)]

/-- A meta module that loads fine but exports nothing. -/
def emptyMetaModule : JsModule :=
  []

/-- A state with an empty `dist`: no provider directories, no artifacts,
only the shared `providerContext` loads. -/
def stEmpty : EngineState :=
  ⟨fun _ => DiskEntry.absent, [], true, [], 0⟩

/-- A state in which the demo provider's posts artifact was rebuilt on
disk (returning v2) while the require cache still holds the stale module
(returning v1). -/
def stStale : EngineState :=
  ⟨fun q => if q = demoPostsPath then DiskEntry.modFile newPostsModule else DiskEntry.absent,
   [("demo")], true, [(demoPostsPath, stalePostsModule)], 0⟩

/-- A state in which the demo provider's meta artifact exists on disk but
throws while loading. -/
def stBrokenMeta : EngineState :=
  ⟨fun q => if q = demoMetaPath
      then DiskEntry.broken (("SyntaxError: unexpected token")) else DiskEntry.absent,
   [("demo")], true, [], 0⟩

/-- A state in which the demo provider's meta module loads but does not
export `getMeta`. -/
def stNoExport : EngineState :=
  ⟨fun q => if q = demoMetaPath then DiskEntry.modFile emptyMetaModule else DiskEntry.absent,
   [("demo")], true, [], 0⟩

/-- A state in which the demo provider's `getPosts` throws the message
that the engine itself uses for unknown capabilities. -/
def stThrowing : EngineState :=
  ⟨fun q => if q = demoPostsPath then DiskEntry.modFile throwingPostsModule else DiskEntry.absent,
   [("demo")], true, [], 0⟩

/-- A state in which the demo provider's `getPosts` throws an ordinary
error. -/
def stBoom : EngineState :=
  ⟨fun q => if q = demoPostsPath then DiskEntry.modFile boomPostsModule else DiskEntry.absent,
   [("demo")], true, [], 0⟩

/-- The artifact text of the C6 counterexample: the catalog declaration is
present but malformed (a bare identifier, which `JSON.parse` rejects),
while the genres declaration is well formed. -/
def cex6Text : String :=
  ("export const catalog = [oops];\nexport const genres = [\x7btitle: \"Action\", filter: \"action\"\x7d];")

/-- The genres entry that the C6 counterexample artifact declares. -/
def cex6Genre : Json :=
  Json.obj [(("title"), Json.str ("Action")), (("filter"), Json.str ("action"))]

/-- A well-formed one-entry catalog artifact, used to witness successful
extraction. -/
def okText : String :=
  ("export const catalog = [\x7btitle: \"New\", filter: \"new\"\x7d];")

/-- The capture the regex model finds inside `okText`. -/
def okCap : List Char :=
  ("[\x7btitle: \"New\", filter: \"new\"\x7d]").data

/-- The catalog entry `okText` declares. -/
def okEntry : Json :=
  Json.obj [(("title"), Json.str ("New")), (("filter"), Json.str ("new"))]

/-!
Helper lemmas: association-list properties, string head discrimination,
and control-path lemmas for `executeProviderFunction`.
-/

theorem alistLookup_objSet_self {α : Type} (o : List (String × α)) (k : String) (v : α) :
    alistLookup k (objSet o k v) = some v := by
  induction o with
  | nil => simp [objSet, alistLookup]
  | cons e t ih =>
    by_cases h : e.1 = k
    · simp [objSet, h, alistLookup]
    · simp [objSet, h, alistLookup, ih]

theorem alistLookup_objSet_ne {α : Type} (o : List (String × α)) (k q : String) (v : α)
    (h : q ≠ k) : alistLookup q (objSet o k v) = alistLookup q o := by
  induction o with
  | nil => simp [objSet, alistLookup, Ne.symm h]
  | cons e t ih =>
    by_cases he : e.1 = k
    · simp [objSet, he, alistLookup, Ne.symm h]
    · by_cases hq : e.1 = q <;> simp [objSet, he, alistLookup, hq, ih, h]

theorem alistLookup_eraseKey_self {α : Type} (c : List (String × α)) (k : String) :
    alistLookup k (eraseKey c k) = none := by
  induction c with
  | nil => rfl
  | cons e t ih =>
    by_cases h : e.1 = k
    · have hb : (e.1 != k) = false := by simp [h]
      simpa [eraseKey, List.filter_cons, hb] using ih
    · have hb : (e.1 != k) = true := by simp [h]
      simpa [eraseKey, List.filter_cons, hb, alistLookup, h] using ih

theorem strHead_append (a x : String) (c : Char) (h : a.data.head? = some c) :
    (a ++ x).data.head? = some c := by
  cases a with
  | mk d =>
    cases x with
    | mk e =>
      cases d with
      | nil => simp at h
      | cons c0 t =>
        have he : (String.mk (c0 :: t) ++ String.mk e) = String.mk (c0 :: (t ++ e)) := rfl
        rw [he]
        simpa using h

theorem ne_of_strHead_ne (s t : String) (c d : Char) (hs : s.data.head? = some c)
    (ht : t.data.head? = some d) (hcd : c ≠ d) : s ≠ t := by
  intro he
  rw [he, ht] at hs
  exact hcd (Option.some.inj hs).symm

theorem ne_empty_of_strHead (s : String) (c : Char) (h : s.data.head? = some c) :
    s ≠ ("") := by
  intro he
  rw [he] at h
  exact Option.noConfusion h

theorem invoke_eq_of_valid (st : EngineState) (p fn : String) (params : List (String × PV))
    (mp : String) (hctx : st.providerContextOk = true)
    (hmap : alistLookup fn functionMap = some fn)
    (hfile : modulePathFor p fn = some mp) :
    executeProviderFunction st p fn params = invokeLoadAndRun st p fn params mp := by
  simp [executeProviderFunction, hctx, hmap, hfile]

theorem invokeLoadAndRun_ok (st : EngineState) (p fn : String) (params : List (String × PV))
    (mp : String) (m : JsModule) (f : ProviderFun)
    (hdisk : st.disk mp = DiskEntry.modFile m)
    (hexp : alistLookup fn m = some f) :
    (invokeLoadAndRun st p fn params mp).result = f (buildCtx params p st.nextSignal) ∧
    (invokeLoadAndRun st p fn params mp).nextSignal = st.nextSignal + 1 ∧
    mp ∈ (invokeLoadAndRun st p fn params mp).loadAttempts ∧
    alistLookup mp (invokeLoadAndRun st p fn params mp).cache = some m := by
  cases hc : alistLookup mp st.cache with
  | none =>
    cases hr : f (buildCtx params p st.nextSignal) <;>
      simp [invokeLoadAndRun, requireModule, hc, hdisk, alistLookup_eraseKey_self,
        hexp, hr, alistLookup]
  | some m1 =>
    cases hr : f (buildCtx params p st.nextSignal) <;>
      simp [invokeLoadAndRun, requireModule, hc, hdisk, alistLookup_eraseKey_self,
        hexp, hr, alistLookup]

theorem invokeLoadAndRun_fail (st : EngineState) (p fn : String) (params : List (String × PV))
    (mp : String) (hfail : ∀ m, st.disk mp ≠ DiskEntry.modFile m) :
    (invokeLoadAndRun st p fn params mp).result =
      Except.error (("Provider function not found: ") ++ p ++ ("/") ++ fn) ∧
    mp ∈ (invokeLoadAndRun st p fn params mp).loadAttempts := by
  cases hc : alistLookup mp st.cache with
  | none =>
    cases hd : st.disk mp with
    | absent => simp [invokeLoadAndRun, requireModule, hc, hd]
    | broken msg => simp [invokeLoadAndRun, requireModule, hc, hd]
    | modFile m => exact absurd hd (hfail m)
  | some m1 =>
    cases hd : st.disk mp with
    | absent => simp [invokeLoadAndRun, requireModule, hc, hd, alistLookup_eraseKey_self]
    | broken msg => simp [invokeLoadAndRun, requireModule, hc, hd, alistLookup_eraseKey_self]
    | modFile m => exact absurd hd (hfail m)

theorem invokeLoadAndRun_noExport (st : EngineState) (p fn : String)
    (params : List (String × PV)) (mp : String) (m : JsModule)
    (hdisk : st.disk mp = DiskEntry.modFile m)
    (hexp : alistLookup fn m = none) :
    (invokeLoadAndRun st p fn params mp).result =
      Except.error (("Function not exported: ") ++ fn ++ (" from ") ++ p) := by
  cases hc : alistLookup mp st.cache with
  | none =>
    simp [invokeLoadAndRun, requireModule, hc, hdisk, alistLookup_eraseKey_self, hexp]
  | some m1 =>
    simp [invokeLoadAndRun, requireModule, hc, hdisk, alistLookup_eraseKey_self, hexp]

/-!
Claim theorems.
-/

/-- C10: for every caller-supplied params object — including one that
itself binds providerValue, signal or providerContext — the built
execution context resolves providerValue to the engine-resolved provider
identifier, signal to the engine-created cancellation signal, and
providerContext to the shared helper bundle, because the engine-supplied
properties are assigned after the caller parameters are spread. -/
theorem buildCtx_engine_overrides (params : List (String × PV)) (provider : String)
    (sig : Nat) :
    alistLookup ("providerValue") (buildCtx params provider sig) =
      some (PV.val (Json.str provider)) ∧
    alistLookup ("signal") (buildCtx params provider sig) = some (PV.signal sig) ∧
    alistLookup ("providerContext") (buildCtx params provider sig) =
      some PV.providerContextRef := by
  refine ⟨?_, ?_, ?_⟩
  · rw [buildCtx, alistLookup_objSet_ne _ _ _ _ (by decide),
      alistLookup_objSet_ne _ _ _ _ (by decide), alistLookup_objSet_self]
  · rw [buildCtx, alistLookup_objSet_ne _ _ _ _ (by decide), alistLookup_objSet_self]
  · rw [buildCtx, alistLookup_objSet_self]

/-- C9: when resolution reaches execution, the resolved function receives
exactly one flat parameter object: the caller parameters (preserved under
every key other than the three engine keys) merged with the provider
identifier, a cancellation signal fresh for this request (the engine's
signal counter, which the call then advances so no later request reuses
it), and the reference to the shared providerContext bundle. -/
theorem invoke_execution_context (st : EngineState) (p fn : String)
    (params : List (String × PV)) (mp : String) (m : JsModule) (f : ProviderFun)
    (hctx : st.providerContextOk = true)
    (hmap : alistLookup fn functionMap = some fn)
    (hfile : modulePathFor p fn = some mp)
    (hdisk : st.disk mp = DiskEntry.modFile m)
    (hexp : alistLookup fn m = some f) :
    (executeProviderFunction st p fn params).result = f (buildCtx params p st.nextSignal) ∧
    alistLookup ("providerValue") (buildCtx params p st.nextSignal) =
      some (PV.val (Json.str p)) ∧
    alistLookup ("signal") (buildCtx params p st.nextSignal) =
      some (PV.signal st.nextSignal) ∧
    alistLookup ("providerContext") (buildCtx params p st.nextSignal) =
      some PV.providerContextRef ∧
    (∀ k : String, k ≠ ("providerValue") → k ≠ ("signal") → k ≠ ("providerContext") →
      alistLookup k (buildCtx params p st.nextSignal) = alistLookup k params) ∧
    (executeProviderFunction st p fn params).nextSignal = st.nextSignal + 1 := by
  rw [invoke_eq_of_valid st p fn params mp hctx hmap hfile]
  have hok := invokeLoadAndRun_ok st p fn params mp m f hdisk hexp
  refine ⟨hok.1, ?_, ?_, ?_, ?_, hok.2.1⟩
  · rw [buildCtx, alistLookup_objSet_ne _ _ _ _ (by decide),
      alistLookup_objSet_ne _ _ _ _ (by decide), alistLookup_objSet_self]
  · rw [buildCtx, alistLookup_objSet_ne _ _ _ _ (by decide), alistLookup_objSet_self]
  · rw [buildCtx, alistLookup_objSet_self]
  · intro k h1 h2 h3
    rw [buildCtx, alistLookup_objSet_ne _ _ _ _ h3, alistLookup_objSet_ne _ _ _ _ h2,
      alistLookup_objSet_ne _ _ _ _ h1]

/-- Witness for C9: in the stale-cache state, the demo provider's context
carries the engine's provider identifier and signal 0, the caller's filter
parameter survives the merge, and the signal counter advances to 1. -/
theorem invoke_execution_context_witness :
    alistLookup ("providerValue")
        (buildCtx [(("filter"), PV.val (Json.str ("latest")))] ("demo") 0) =
      some (PV.val (Json.str ("demo"))) ∧
    alistLookup ("signal")
        (buildCtx [(("filter"), PV.val (Json.str ("latest")))] ("demo") 0) =
      some (PV.signal 0) ∧
    alistLookup ("filter")
        (buildCtx [(("filter"), PV.val (Json.str ("latest")))] ("demo") 0) =
      alistLookup ("filter") [(("filter"), PV.val (Json.str ("latest")))] ∧
    (executeProviderFunction stStale ("demo") ("getPosts")
        [(("filter"), PV.val (Json.str ("latest")))]).nextSignal = 0 + 1 :=
  ⟨(invoke_execution_context stStale ("demo") ("getPosts")
      [(("filter"), PV.val (Json.str ("latest")))] demoPostsPath newPostsModule
      newPostsFun rfl rfl rfl rfl rfl).2.1,
   (invoke_execution_context stStale ("demo") ("getPosts")
      [(("filter"), PV.val (Json.str ("latest")))] demoPostsPath newPostsModule
      newPostsFun rfl rfl rfl rfl rfl).2.2.1,
   (invoke_execution_context stStale ("demo") ("getPosts")
      [(("filter"), PV.val (Json.str ("latest")))] demoPostsPath newPostsModule
      newPostsFun rfl rfl rfl rfl rfl).2.2.2.2.1 ("filter")
      (by decide) (by decide) (by decide),
   (invoke_execution_context stStale ("demo") ("getPosts")
      [(("filter"), PV.val (Json.str ("latest")))] demoPostsPath newPostsModule
      newPostsFun rfl rfl rfl rfl rfl).2.2.2.2.2⟩

/-- C2: every resolution evicts any cached module for the key and loads
fresh from disk before use, so the executed implementation is always the
one from the current on-disk artifact: the result is computed by the
function found in the disk module, a disk load of the module path occurs
during the call, and afterwards the cache holds the disk module —
independently of whatever (possibly stale) module the cache held before. -/
theorem invoke_fresh_reload (st : EngineState) (p fn : String)
    (params : List (String × PV)) (mp : String) (m : JsModule) (f : ProviderFun)
    (hctx : st.providerContextOk = true)
    (hmap : alistLookup fn functionMap = some fn)
    (hfile : modulePathFor p fn = some mp)
    (hdisk : st.disk mp = DiskEntry.modFile m)
    (hexp : alistLookup fn m = some f) :
    (executeProviderFunction st p fn params).result = f (buildCtx params p st.nextSignal) ∧
    mp ∈ (executeProviderFunction st p fn params).loadAttempts ∧
    alistLookup mp (executeProviderFunction st p fn params).cache = some m := by
  rw [invoke_eq_of_valid st p fn params mp hctx hmap hfile]
  have hok := invokeLoadAndRun_ok st p fn params mp m f hdisk hexp
  exact ⟨hok.1, hok.2.2.1, hok.2.2.2⟩

/-- Witness for C2: with the stale v1 module still in the require cache
and the rebuilt v2 artifact on disk, the very next call returns v2. -/
theorem invoke_fresh_reload_witness :
    (executeProviderFunction stStale ("demo") ("getPosts") []).result =
      Except.ok (Json.str ("v2")) ∧
    alistLookup demoPostsPath stStale.cache = some stalePostsModule :=
  ⟨((invoke_fresh_reload stStale ("demo") ("getPosts") [] demoPostsPath newPostsModule
      newPostsFun rfl rfl rfl rfl rfl).1).trans rfl, rfl⟩

/-- C3: a capability name outside the closed five-name set fails with the
"Unknown function" error before any module lookup for the provider (no
disk load is attempted), for every provider identifier and every engine
state — so the outcome does not depend on whether the provider exists or
builds — and the error differs from the capability-not-supported error. -/
theorem invoke_unknown_capability (st : EngineState) (p fn : String)
    (params : List (String × PV)) (hctx : st.providerContextOk = true)
    (hunk : alistLookup fn functionMap = none) :
    (executeProviderFunction st p fn params).result =
      Except.error (("Unknown function: ") ++ fn) ∧
    (executeProviderFunction st p fn params).loadAttempts = [] ∧
    ∀ q g : String,
      (("Unknown function: ") ++ fn) ≠
        (("Function not exported: ") ++ g ++ (" from ") ++ q) := by
  refine ⟨?_, ?_, ?_⟩
  · simp [executeProviderFunction, hctx, hunk]
  · simp [executeProviderFunction, hctx, hunk]
  · intro q g
    refine ne_of_strHead_ne _ _ ('U') ('F') (strHead_append _ _ _ rfl) ?_ (by decide)
    exact strHead_append _ _ _ (strHead_append _ _ _ (strHead_append _ _ _ rfl))

/-- Witness for C3: a made-up capability name fails with the unknown-
function error, with no load attempt, in the empty state. -/
theorem invoke_unknown_capability_witness :
    (executeProviderFunction stEmpty ("demo") ("fetchStuff") []).result =
      Except.error (("Unknown function: fetchStuff")) ∧
    (executeProviderFunction stEmpty ("demo") ("fetchStuff") []).loadAttempts = [] :=
  ⟨(invoke_unknown_capability stEmpty ("demo") ("fetchStuff") [] rfl rfl).1,
   (invoke_unknown_capability stEmpty ("demo") ("fetchStuff") [] rfl rfl).2.1⟩

/-- C5: a provider whose module for the capability's group loads but does
not export the bound function fails with the "Function not exported"
error, which differs from the module-load-failure error. -/
theorem invoke_capability_not_supported (st : EngineState) (p fn : String)
    (params : List (String × PV)) (mp : String) (m : JsModule)
    (hctx : st.providerContextOk = true)
    (hmap : alistLookup fn functionMap = some fn)
    (hfile : modulePathFor p fn = some mp)
    (hdisk : st.disk mp = DiskEntry.modFile m)
    (hexp : alistLookup fn m = none) :
    (executeProviderFunction st p fn params).result =
      Except.error (("Function not exported: ") ++ fn ++ (" from ") ++ p) ∧
    ∀ q g : String,
      (("Function not exported: ") ++ fn ++ (" from ") ++ p) ≠
        (("Provider function not found: ") ++ q ++ ("/") ++ g) := by
  constructor
  · rw [invoke_eq_of_valid st p fn params mp hctx hmap hfile]
    exact invokeLoadAndRun_noExport st p fn params mp m hdisk hexp
  · intro q g
    refine ne_of_strHead_ne _ _ ('F') ('P') ?_ ?_ (by decide)
    · exact strHead_append _ _ _ (strHead_append _ _ _ (strHead_append _ _ _ rfl))
    · exact strHead_append _ _ _ (strHead_append _ _ _ (strHead_append _ _ _ rfl))

/-- Witness for C5: the demo provider's meta module loads but exports
nothing, so fetching meta fails with the capability-not-supported error,
distinct from the load-failure error. -/
theorem invoke_capability_not_supported_witness :
    (executeProviderFunction stNoExport ("demo") ("getMeta") []).result =
      Except.error (("Function not exported: getMeta from demo")) ∧
    (("Function not exported: getMeta from demo")) ≠
      (("Provider function not found: demo/getMeta")) :=
  ⟨(invoke_capability_not_supported stNoExport ("demo") ("getMeta") [] demoMetaPath
      emptyMetaModule rfl rfl rfl rfl rfl).1,
   (invoke_capability_not_supported stNoExport ("demo") ("getMeta") [] demoMetaPath
      emptyMetaModule rfl rfl rfl rfl rfl).2 ("demo") ("getMeta")⟩

/-- C1 (counterexample): with an empty dist the registry reports no
providers, yet invoking the absent demo provider performs a disk-load
attempt for its posts module — the failure does not occur before a module
load is attempted for that provider, and the resulting error is the
generic "Provider function not found" load-failure message produced by
that attempt, not a prior registry check. -/
theorem invoke_missing_provider_counterexample :
    getAvailableProviders stEmpty = [] ∧
    (executeProviderFunction stEmpty ("demo") ("getPosts") []).loadAttempts =
      [demoPostsPath] ∧
    (executeProviderFunction stEmpty ("demo") ("getPosts") []).result =
      Except.error (("Provider function not found: demo/getPosts")) :=
  ⟨rfl, rfl, rfl⟩

/-- C1 (amended): invoking a provider that is absent from the registry and
has no compiled artifact fails with the "Provider function not found"
error, and that failure is produced by a module-load attempt for the
provider's module path — `executeProviderFunction` performs no registry
check before loading. -/
theorem invoke_missing_provider (st : EngineState) (p fn : String)
    (params : List (String × PV)) (mp : String)
    (hctx : st.providerContextOk = true)
    (hmap : alistLookup fn functionMap = some fn)
    (hfile : modulePathFor p fn = some mp)
    (hreg : p ∉ getAvailableProviders st)
    (hdisk : st.disk mp = DiskEntry.absent) :
    (executeProviderFunction st p fn params).result =
      Except.error (("Provider function not found: ") ++ p ++ ("/") ++ fn) ∧
    mp ∈ (executeProviderFunction st p fn params).loadAttempts := by
  have hfail : ∀ m, st.disk mp ≠ DiskEntry.modFile m := by
    intro m hcontra
    rw [hdisk] at hcontra
    exact DiskEntry.noConfusion hcontra
  rw [invoke_eq_of_valid st p fn params mp hctx hmap hfile]
  exact invokeLoadAndRun_fail st p fn params mp hfail

/-- Witness for the amended C1. -/
theorem invoke_missing_provider_witness :
    (executeProviderFunction stEmpty ("demo") ("getPosts") []).result =
      Except.error (("Provider function not found: demo/getPosts")) ∧
    demoPostsPath ∈ (executeProviderFunction stEmpty ("demo") ("getPosts") []).loadAttempts :=
  ⟨(invoke_missing_provider stEmpty ("demo") ("getPosts") [] demoPostsPath rfl rfl rfl
      (List.not_mem_nil _) rfl).1,
   (invoke_missing_provider stEmpty ("demo") ("getPosts") [] demoPostsPath rfl rfl rfl
      (List.not_mem_nil _) rfl).2⟩

/-- C4 (counterexample): a missing meta artifact and a meta artifact that
is present but throws while loading produce identical errors — there are
not two distinguishable error kinds for the two load-failure cases. -/
theorem load_failure_conflation_counterexample :
    stEmpty.disk demoMetaPath = DiskEntry.absent ∧
    stBrokenMeta.disk demoMetaPath = DiskEntry.broken (("SyntaxError: unexpected token")) ∧
    (executeProviderFunction stEmpty ("demo") ("getMeta") []).result =
      Except.error (("Provider function not found: demo/getMeta")) ∧
    (executeProviderFunction stBrokenMeta ("demo") ("getMeta") []).result =
      (executeProviderFunction stEmpty ("demo") ("getMeta") []).result :=
  ⟨rfl, rfl, rfl, rfl⟩

/-- C4 (amended): both load-failure cases — no compiled artifact for the
module group, and an artifact that is present but fails to load — surface
as the one "Provider function not found" error, which the
POST /execute-provider route catches and converts into a structured
client-facing 500 response carrying that message rather than terminating
the process. -/
theorem invoke_load_failure_single_error (st : EngineState) (p fn : String)
    (params : List (String × PV)) (mp : String)
    (hctx : st.providerContextOk = true)
    (hmap : alistLookup fn functionMap = some fn)
    (hfile : modulePathFor p fn = some mp)
    (hp : p ≠ ("")) (hf : fn ≠ (""))
    (hfail : ∀ m, st.disk mp ≠ DiskEntry.modFile m) :
    (executeProviderFunction st p fn params).result =
      Except.error (("Provider function not found: ") ++ p ++ ("/") ++ fn) ∧
    executeProviderRoute st (some p) (some fn) (some params) =
      ⟨500, Json.obj [(("error"),
        Json.str ((("Provider function not found: ") ++ p ++ ("/") ++ fn)))]⟩ := by
  have hres : (executeProviderFunction st p fn params).result =
      Except.error (("Provider function not found: ") ++ p ++ ("/") ++ fn) := by
    rw [invoke_eq_of_valid st p fn params mp hctx hmap hfile]
    exact (invokeLoadAndRun_fail st p fn params mp hfail).1
  have hne : (("Provider function not found: ") ++ p ++ ("/") ++ fn) ≠ ("") :=
    ne_empty_of_strHead _ ('P')
      (strHead_append _ _ _ (strHead_append _ _ _ (strHead_append _ _ _ rfl)))
  exact ⟨hres, by simp [executeProviderRoute, isFalsyStr, hp, hf, hres, hne]⟩

/-- Witness for the amended C4: the broken meta artifact yields the single
load-failure error and a structured 500 response. -/
theorem invoke_load_failure_single_error_witness :
    (executeProviderFunction stBrokenMeta ("demo") ("getMeta") []).result =
      Except.error (("Provider function not found: demo/getMeta")) ∧
    executeProviderRoute stBrokenMeta (some ("demo")) (some ("getMeta")) (some []) =
      ⟨500, Json.obj [(("error"), Json.str (("Provider function not found: demo/getMeta")))]⟩ :=
  ⟨(invoke_load_failure_single_error stBrokenMeta ("demo") ("getMeta") [] demoMetaPath
      rfl rfl rfl (by decide) (by decide)
      (fun m hcontra => by
        rw [show stBrokenMeta.disk demoMetaPath =
          DiskEntry.broken (("SyntaxError: unexpected token")) from rfl] at hcontra
        exact DiskEntry.noConfusion hcontra)).1,
   (invoke_load_failure_single_error stBrokenMeta ("demo") ("getMeta") [] demoMetaPath
      rfl rfl rfl (by decide) (by decide)
      (fun m hcontra => by
        rw [show stBrokenMeta.disk demoMetaPath =
          DiskEntry.broken (("SyntaxError: unexpected token")) from rfl] at hcontra
        exact DiskEntry.noConfusion hcontra)).2⟩

/-- C7 (counterexample): an error raised by the provider's own logic is
rethrown verbatim, not reclassified: a provider whose `getPosts` throws
the message "Unknown function: nope" produces a result identical to the
engine's own unknown-capability failure for the name "nope" — so the
outcome carries no ProviderExecutionFailed classification distinguishing
provider-raised errors from engine errors. -/
theorem provider_error_not_reclassified_counterexample :
    (executeProviderFunction stThrowing ("demo") ("getPosts") []).result =
      Except.error (("Unknown function: nope")) ∧
    (executeProviderFunction stThrowing ("demo") ("nope") []).result =
      Except.error (("Unknown function: nope")) ∧
    (executeProviderFunction stThrowing ("demo") ("getPosts") []).result =
      (executeProviderFunction stThrowing ("demo") ("nope") []).result :=
  ⟨rfl, rfl, rfl⟩

/-- C7 (amended): an error raised by the invoked provider function is
caught, logged and rethrown with its original message unchanged;
the transport route then catches it and returns a structured 500
response carrying that message, so no provider error escapes as an
unhandled fault — but no reclassification into a distinct
ProviderExecutionFailed kind takes place. -/
theorem provider_error_rethrown (st : EngineState) (p filter : String) (page : Int)
    (mp : String) (m : JsModule) (f : ProviderFun) (msg : String)
    (hctx : st.providerContextOk = true)
    (hfile : modulePathFor p ("getPosts") = some mp)
    (hdisk : st.disk mp = DiskEntry.modFile m)
    (hexp : alistLookup ("getPosts") m = some f)
    (hrun : f (buildCtx (postsParams filter page) p st.nextSignal) = Except.error msg) :
    (executeProviderFunction st p ("getPosts") (postsParams filter page)).result =
      Except.error msg ∧
    getPostsRoute st p filter page = ⟨500, Json.obj [(("error"), Json.str msg)]⟩ := by
  have hres : (executeProviderFunction st p ("getPosts") (postsParams filter page)).result =
      Except.error msg := by
    rw [invoke_eq_of_valid st p ("getPosts") (postsParams filter page) mp hctx rfl hfile]
    rw [(invokeLoadAndRun_ok st p ("getPosts") (postsParams filter page) mp m f
      hdisk hexp).1, hrun]
  exact ⟨hres, by simp [getPostsRoute, hres]⟩

/-- Witness for the amended C7. -/
theorem provider_error_rethrown_witness :
    (executeProviderFunction stBoom ("demo") ("getPosts") (postsParams ("") 1)).result =
      Except.error (("boom")) ∧
    getPostsRoute stBoom ("demo") ("") 1 =
      ⟨500, Json.obj [(("error"), Json.str ("boom"))]⟩ :=
  provider_error_rethrown stBoom ("demo") ("") 1 demoPostsPath boomPostsModule
    boomPostsFun (("boom")) rfl rfl rfl rfl rfl

/-- C6 (counterexample): an artifact whose catalog declaration fails to
decode but whose genres declaration is well formed yields the default
catalog together with a NON-empty genres sequence — the claim's "empty
genres sequence" does not hold for every provider with an unrecoverable
catalog declaration. -/
theorem resolveCatalog_genres_counterexample :
    sourceCatalogRaw (some cex6Text) = [] ∧
    (resolveCatalog (some cex6Text)).catalog = defaultCatalog ∧
    (resolveCatalog (some cex6Text)).genres ≠ [] := by
  refine ⟨rfl, rfl, ?_⟩
  intro h
  have h1 : (resolveCatalog (some cex6Text)).genres.length = 1 := rfl
  rw [h] at h1
  simp at h1

/-- C6 (amended): whenever the catalog field is unrecoverable (artifact
missing, declaration not located, decode failure, or decoded empty), the
route returns exactly the two-entry default catalog; the genres field is
extracted independently — it equals whatever the genres extraction
produced, and when the artifact is missing both the default catalog and an
empty genres sequence are returned. -/
theorem resolveCatalog_default_on_missing_catalog (source : Option String)
    (h : sourceCatalogRaw source = []) :
    (resolveCatalog source).catalog = defaultCatalog ∧
    (resolveCatalog source).genres = sourceGenresRaw source ∧
    resolveCatalog none = ⟨defaultCatalog, []⟩ := by
  refine ⟨?_, rfl, rfl⟩
  simp [resolveCatalog, h]

/-- Witness for the amended C6: a missing artifact produces the default
catalog and empty genres. -/
theorem resolveCatalog_default_witness :
    (resolveCatalog none).catalog = defaultCatalog ∧
    (resolveCatalog none).genres = [] :=
  ⟨(resolveCatalog_default_on_missing_catalog none rfl).1,
   (resolveCatalog_default_on_missing_catalog none rfl).2.1⟩

/-- C8: the extractor is total and degrades gracefully, field by field:
each of the two fields is either empty or exactly the successfully decoded
capture of its located declaration; and whenever the declaration is
located and decodes, the field is the decoded ordered sequence (a missing
declaration or a decode failure therefore leaves that field empty without
any error escaping). -/
theorem extractCatalogMetadata_total (text : String) :
    ((extractCatalogMetadata text).catalog = [] ∨
      ∃ cap, locateDecl catalogPat text.data = some cap ∧
        decodeArray (normalizeLiteral cap) = some ((extractCatalogMetadata text).catalog)) ∧
    ((extractCatalogMetadata text).genres = [] ∨
      ∃ cap, locateDecl genresPat text.data = some cap ∧
        decodeArray (normalizeLiteral cap) = some ((extractCatalogMetadata text).genres)) ∧
    (∀ cap xs, locateDecl catalogPat text.data = some cap →
      decodeArray (normalizeLiteral cap) = some xs →
      (extractCatalogMetadata text).catalog = xs) ∧
    (∀ cap xs, locateDecl genresPat text.data = some cap →
      decodeArray (normalizeLiteral cap) = some xs →
      (extractCatalogMetadata text).genres = xs) := by
  refine ⟨?_, ?_, ?_, ?_⟩
  · cases hl : locateDecl catalogPat text.data with
    | none => exact Or.inl (by simp [extractCatalogMetadata, extractField, hl])
    | some cap =>
      cases hd : decodeArray (normalizeLiteral cap) with
      | none => exact Or.inl (by simp [extractCatalogMetadata, extractField, hl, hd])
      | some xs =>
        exact Or.inr ⟨cap, rfl, by simp [extractCatalogMetadata, extractField, hl, hd]⟩
  · cases hl : locateDecl genresPat text.data with
    | none => exact Or.inl (by simp [extractCatalogMetadata, extractField, hl])
    | some cap =>
      cases hd : decodeArray (normalizeLiteral cap) with
      | none => exact Or.inl (by simp [extractCatalogMetadata, extractField, hl, hd])
      | some xs =>
        exact Or.inr ⟨cap, rfl, by simp [extractCatalogMetadata, extractField, hl, hd]⟩
  · intro cap xs hl hd
    simp [extractCatalogMetadata, extractField, hl, hd]
  · intro cap xs hl hd
    simp [extractCatalogMetadata, extractField, hl, hd]

/-- Witness for C8: on a well-formed artifact the located catalog capture
decodes and the extractor returns exactly that entry. -/
theorem extractCatalogMetadata_total_witness :
    (extractCatalogMetadata okText).catalog = [okEntry] :=
  (extractCatalogMetadata_total okText).2.2.1 okCap [okEntry] rfl rfl
